import Mathlib

/-!
# Verification of the `sra-processor` pipeline core

Shallow embedding of the artifact-based stage-detection state machine, the
read-type classification heuristic and the orchestration/resume algorithm of
the `sra_processor` Python package (`utils.py`, `trimmer.py`, `downloader.py`,
`cli.py`), together with proofs of the spec's claims about them.

The filesystem a work unit owns is modelled as the unit's working directory:
a flag for the directory's existence plus the finite set of recognized
artifact names the code ever tests for, with one extra constructor (`stray`)
for an unrecognized file.  All functions are translated statement by
statement from the Python source; external tools are oracles (an exit status
plus the set of files the run creates).
-/

set_option maxRecDepth 2048

namespace SRA

/-- The accepted uncompressed FASTQ extension spellings,
`FASTQ_EXTENSIONS = ['.fastq', '.fq', '.fas']` in `utils.py`. -/
inductive Ext : Type
  | fastq
  | fq
  | fas
deriving DecidableEq, Repr

/-- `FASTQ_EXTENSIONS`, in source order. -/
def FASTQ_EXTENSIONS : List Ext := [.fastq, .fq, .fas]

/-- The artifact file names, relative to a unit's working directory, that the
code ever probes for a unit `<id>`:
* `trimmed1`/`trimmed2` — `<id>_1_trimmed.fastq.gz`, `<id>_2_trimmed.fastq.gz`
* `trimmedS` — `<id>_trimmed.fastq.gz`
* `raw1 e`/`raw2 e` — mate files `<id>_1<e>`, `<id>_2<e>`
* `rawS e` — single read file `<id><e>`
* `sraRoot` — `<id>.sra` at the unit root
* `sraSub` — `<id>/<id>.sra` in the identifier-named subdirectory
* `reportHtml`/`reportJson` — `report_<id>.html`, `report_<id>.json`
* `stray` — any other, unrecognized file. -/
inductive FName : Type
  | trimmed1
  | trimmed2
  | trimmedS
  | raw1 (e : Ext)
  | raw2 (e : Ext)
  | rawS (e : Ext)
  | sraRoot
  | sraSub
  | reportHtml
  | reportJson
  | stray
deriving DecidableEq, Repr

/-- A work unit's working directory: whether `<outputRoot>/<id>` exists, and
which recognized files are present inside it. -/
structure UnitDir : Type where
  dirExists : Bool
  files : List FName
deriving DecidableEq, Repr

namespace UnitDir

/-- `path.exists()` for a file inside the unit directory. -/
def has (d : UnitDir) (f : FName) : Bool := d.files.contains f

/-- Create files (what a tool run leaves behind); also the directory now
exists. -/
def addFiles (d : UnitDir) (fs : List FName) : UnitDir :=
  { dirExists := true, files := fs ++ d.files.filter (fun g => !fs.contains g) }

/-- `Path.unlink(missing_ok=True)` for each given file. -/
def removeFiles (d : UnitDir) (fs : List FName) : UnitDir :=
  { d with files := d.files.filter (fun g => !fs.contains g) }

/-- `shutil.rmtree(srr_dir)` (plus the guard `if srr_dir.exists()`): the unit
directory and everything in it is gone. -/
def rmtree (_ : UnitDir) : UnitDir := { dirExists := false, files := [] }

/-- `srr_dir.mkdir(exist_ok=True)`. -/
def mkdir (d : UnitDir) : UnitDir := { d with dirExists := true }

end UnitDir

/-- The return values of `check_srr_status` in `utils.py`. -/
inductive Status : Type
  | new
  | sra_downloaded
  | fastq_ready
  | single_end
  | complete
  | unknown
deriving DecidableEq, Repr

/-- `check_srr_status(srr_id, output_dir)` from `utils.py`, translated check
by check.  The Python loops over `FASTQ_EXTENSIONS` returning on the first
extension whose file(s) exist; since every iteration returns the same status,
this is `List.any` over the extensions. -/
def check_srr_status (d : UnitDir) : Status :=
  if !d.dirExists then .new
  else if d.has .trimmed1 && d.has .trimmed2 then .complete
  else if d.has .trimmedS then .complete
  else if FASTQ_EXTENSIONS.any (fun e => d.has (.raw1 e) && d.has (.raw2 e)) then .fastq_ready
  else if FASTQ_EXTENSIONS.any (fun e => d.has (.rawS e)) then .single_end
  else if d.has .sraRoot || d.has .sraSub then .sra_downloaded
  else .unknown

/-! ## Read-type classification (`utils.detect_fastq_type`, `trimmer._is_long_read`) -/

/-- The ASCII whitespace characters Python's `str.strip()` removes (the
line terminator included, since `next(f)` yields lines with their
newline). -/
def isPySpace (c : Char) : Bool :=
  c = ' ' || c = '\t' || c = '\n' || c = '\x0d' || c = '\x0b' || c = '\x0c'

/-- `len(s.strip())`: the length of the line after removing leading and
trailing whitespace. -/
def stripLength (s : String) : Nat :=
  ((s.data.dropWhile isPySpace).reverse.dropWhile isPySpace).length

/-- The sampling loop shared by `detect_fastq_type` and `_is_long_read`:
at most 25 iterations, each taking four lines (header/seq/plus/qual) with
`next(f, None)` and breaking when the sequence line is missing; each
iteration records `len(seq.strip())`.  The file is a list of lines. -/
def sampleLengthsAux : Nat → List String → List Nat
  | 0, _ => []
  | n + 1, ls =>
    match ls.get? 1 with
    | none => []
    | some s => stripLength s :: sampleLengthsAux n (ls.drop 4)

/-- `lengths` after the 25-record sampling loop. -/
def sampleLengths (ls : List String) : List Nat := sampleLengthsAux 25 ls

/-- `avg_length = sum(lengths) / len(lengths)`.  Python computes this with
float division; for the sampled regime (at most 25 records) comparison of
the float quotient against 500 agrees with exact rational arithmetic, so the
mean is embedded as a rational. -/
def avgLength (L : List Nat) : ℚ := (L.sum : ℚ) / (L.length : ℚ)

/-- The return values of `detect_fastq_type` (also reused for the
`data_type` strings `'paired'`/`'single'` of `_validate_output`). -/
inductive FType : Type
  | paired
  | single
  | long
deriving DecidableEq, Repr

/-- `detect_fastq_type(fastq_file)` from `utils.py`.  `content` is the
outcome of opening and sampling the file (`.error` = any exception, handled
by the surrounding `try`), `name1` is whether the file name matches the
`re.search(r'_1[._]', name)` pattern, `partnerExists` whether the `_2`
sibling exists.  Returns the detected type together with whether a
warning-level message was logged. -/
def detect_fastq_type (content : Except Unit (List String))
    (name1 partnerExists : Bool) : FType × Bool :=
  match content with
  | .error _ => (.single, true)
  | .ok lines =>
    let L := sampleLengths lines
    if L.isEmpty then (.single, true)
    else if 500 < avgLength L then (.long, false)
    else if name1 && partnerExists then (.paired, false)
    else (.single, false)

/-- `FastpProcessor._is_long_read(input_file)` from `trimmer.py` (the body
as written; note the `open_fastq_file` helper it calls is nowhere defined,
which is the subject of claim C1).  Any exception, and an empty sample,
give `False`. -/
def is_long_read (content : Except Unit (List String)) : Bool :=
  match content with
  | .error _ => false
  | .ok lines =>
    let L := sampleLengths lines
    if L.isEmpty then false
    else decide (500 < avgLength L)

/-! ## Extension normalization (`trimmer._standardize_fastq_extensions`) -/

/-- The paired branch of `_standardize_fastq_extensions`: iterate over
`['.fastq', '.fq', '.fas']`; at the first extension whose two mate files
both exist, if it is not `.fastq` delete any existing canonical mates and
rename the pair, then return the canonical pair; `none` when no extension
matches. -/
def standardizePairedAux : List Ext → UnitDir → Option (FName × FName) × UnitDir
  | [], d => (none, d)
  | e :: rest, d =>
    if d.has (.raw1 e) && d.has (.raw2 e) then
      if e = Ext.fastq then (some (.raw1 .fastq, .raw2 .fastq), d)
      else
        (some (.raw1 .fastq, .raw2 .fastq),
         ((d.removeFiles [.raw1 .fastq, .raw2 .fastq]).removeFiles
            [.raw1 e, .raw2 e]).addFiles [.raw1 .fastq, .raw2 .fastq])
    else standardizePairedAux rest d

/-- The single branch of `_standardize_fastq_extensions`. -/
def standardizeSingleAux : List Ext → UnitDir → Option FName × UnitDir
  | [], d => (none, d)
  | e :: rest, d =>
    if d.has (.rawS e) then
      if e = Ext.fastq then (some (.rawS .fastq), d)
      else
        (some (.rawS .fastq),
         ((d.removeFiles [.rawS .fastq]).removeFiles [.rawS e]).addFiles
           [.rawS .fastq])
    else standardizeSingleAux rest d

/-- `FastpProcessor._standardize_fastq_extensions(srr_id, output_dir,
paired)`: the returned `std_files` tuple (as a list) and the directory after
the renames. -/
def standardize_fastq_extensions (paired : Bool) (d : UnitDir) :
    Option (List FName) × UnitDir :=
  if paired then
    match standardizePairedAux FASTQ_EXTENSIONS d with
    | (some (a, b), d1) => (some [a, b], d1)
    | (none, d1) => (none, d1)
  else
    match standardizeSingleAux FASTQ_EXTENSIONS d with
    | (some a, d1) => (some [a], d1)
    | (none, d1) => (none, d1)

/-! ## Errors, tools, configuration -/

/-- The exceptions relevant to the embedded control flow.  `indexError`
stands for a plain Python exception (e.g. `IndexError` from
`input_files[0]` on an empty list) that is not an `SRAProcessingError`. -/
inductive Err : Type
  | downloadError
  | conversionError
  | trimmingError
  | indexError
deriving DecidableEq, Repr

/-- Which of the modelled exceptions are `SRAProcessingError` subclasses
(`exceptions.py`), and hence are caught at the orchestrator's per-unit
`except SRAProcessingError` boundary. -/
def Err.isSRAProcessingError : Err → Bool
  | .downloadError => true
  | .conversionError => true
  | .trimmingError => true
  | .indexError => false

/-- The external tools the pipeline invokes as subprocesses. -/
inductive Tool : Type
  | prefetch
  | fasterqDump
  | fastp
  | fastplong
deriving DecidableEq, Repr

/-- The observable behaviour of one external-tool invocation: its exit
status (`exitZero` = `subprocess.run(..., check=True)` does not raise) and
the artifact files the run leaves in the unit directory. -/
structure ToolRun : Type where
  exitZero : Bool
  creates : List FName
deriving DecidableEq, Repr

/-- The execution environment: per-tool behaviour, and the readable content
of each file (`.error` = opening or reading it raises). -/
structure Env : Type where
  run : Tool → ToolRun
  content : FName → Except Unit (List String)

/-- The configuration dict assembled by `create_config` in `cli.py`,
restricted to the fields the embedded code paths read, plus
`force_long_reads`, which `create_config` stores. -/
structure Config : Type where
  threads : Nat
  keep_temp : Bool
  force_long_reads : Bool
  force_overwrite : Bool
  keep_sra : Bool
deriving DecidableEq, Repr

/-- The CLI arguments `create_config` reads (for the modelled fields). -/
structure Args : Type where
  threads : Nat
  keep_temp : Bool
  force_long_reads : Bool
  force : Bool
  keep_sra : Bool
deriving DecidableEq, Repr

/-- The three subcommands of `cli.py`. -/
inductive Subcommand : Type
  | download
  | trim
  | full
deriving DecidableEq, Repr

/-- `create_config(args, subcommand)` from `cli.py` (modelled fields):
`force_long_reads` is always stored; `force_overwrite` is set from
`args.force` only for `trim`/`full` (elsewhere `config.get` defaults it to
`False`); for `full`, `keep_sra` is forced to `False`, and for `trim` it is
never set (`.get` default `False`). -/
def create_config (args : Args) (sub : Subcommand) : Config :=
  { threads := args.threads
    keep_temp := args.keep_temp
    force_long_reads := args.force_long_reads
    force_overwrite := if sub = .download then false else args.force
    keep_sra :=
      match sub with
      | .download => args.keep_sra
      | .trim => false
      | .full => false }

/-! ## Stage runners (`downloader.py`, `trimmer.py`)

Each stage returns its Python result (or the exception it raises), the
directory after its filesystem effects, and the list of external tools it
invoked. -/

/-- `SRADownloader.download_sra(srr_id)`: `mkdir(exist_ok=True)`; skip when
`<id>/<id>.sra` already exists; otherwise run `prefetch`, raising
`DownloadError` on non-zero exit.  Note the skip check probes only the
identifier-named subdirectory location. -/
def download_sra (env : Env) (d : UnitDir) :
    Except Err Unit × UnitDir × List Tool :=
  let d1 := d.mkdir
  if d1.has .sraSub then (.ok (), d1, [])
  else
    let r := env.run .prefetch
    if r.exitZero then (.ok (), d1.addFiles r.creates, [.prefetch])
    else (.error .downloadError, d1, [.prefetch])

/-- `SRADownloader._validate_output(srr_id, sra_dir)`: first extension with
a complete mate pair wins (`'paired'`), else the first extension with a
single read file (`'single'`), else `ConversionError`. -/
def validate_output (d : UnitDir) : Except Err (FType × List FName) :=
  match FASTQ_EXTENSIONS.find? (fun e => d.has (.raw1 e) && d.has (.raw2 e)) with
  | some e => .ok (.paired, [.raw1 e, .raw2 e])
  | none =>
    match FASTQ_EXTENSIONS.find? (fun e => d.has (.rawS e)) with
    | some e => .ok (.single, [.rawS e])
    | none => .error .conversionError

/-- `SRADownloader._clean_sra_file`: unlink the `.sra` archive at both
accepted locations (deletion errors only warn). -/
def clean_sra_file (d : UnitDir) : UnitDir := d.removeFiles [.sraRoot, .sraSub]

/-- `SRADownloader.convert_to_fastq(srr_id, sra_dir)`: locate the archive at
either accepted location (`ConversionError` if absent), run `fasterq-dump`
(`ConversionError` on non-zero exit), then `_validate_output`.  There is no
skip check: the tool is invoked even when the FASTQ outputs already exist. -/
def convert_to_fastq (env : Env) (d : UnitDir) :
    Except Err (FType × List FName) × UnitDir × List Tool :=
  if !(d.has .sraSub || d.has .sraRoot) then (.error .conversionError, d, [])
  else
    let r := env.run .fasterqDump
    if r.exitZero then
      let d1 := d.addFiles r.creates
      (validate_output d1, d1, [.fasterqDump])
    else (.error .conversionError, d, [.fasterqDump])

/-- `SRADownloader.download_and_convert(srr_id)`: download, convert, then
delete the `.sra` archive unless `keep_sra`. -/
def download_and_convert (env : Env) (cfg : Config) (d : UnitDir) :
    Except Err (FType × List FName) × UnitDir × List Tool :=
  match download_sra env d with
  | (.error e, d1, t1) => (.error e, d1, t1)
  | (.ok _, d1, t1) =>
    match convert_to_fastq env d1 with
    | (.error e, d2, t2) => (.error e, d2, t1 ++ t2)
    | (.ok res, d2, t2) =>
      let d3 := if cfg.keep_sra then d2 else clean_sra_file d2
      (.ok res, d3, t1 ++ t2)

/-- `FastpProcessor._run_trimming(cmd, input_files)`: run the tool; on exit
zero delete the input files unless `keep_temp` and return `True` — with no
check that the expected outputs were produced; on non-zero exit raise
`TrimmingError`. -/
def run_trimming (env : Env) (cfg : Config) (tool : Tool)
    (inputs : List FName) (d : UnitDir) :
    Except Err Bool × UnitDir × List Tool :=
  let r := env.run tool
  if r.exitZero then
    let d1 := d.addFiles r.creates
    let d2 := if cfg.keep_temp then d1 else d1.removeFiles inputs
    (.ok true, d2, [tool])
  else (.error .trimmingError, d, [tool])

/-- `FastpProcessor._process_paired_end(input_files, srr_id, ...)`.
`inputsAbs` is `Path(input_files[0]).is_absolute() and
Path(input_files[0]).exists()`; in the per-unit flows of `cli.py` the input
paths come from `glob` under an absolutized output root, so it is `true`
there. -/
def process_paired_end (env : Env) (cfg : Config) (inputsAbs : Bool)
    (inputs : List FName) (d : UnitDir) :
    Except Err Bool × UnitDir × List Tool :=
  let d1 := d.mkdir
  if d1.has .trimmed1 && d1.has .trimmed2 && !cfg.force_overwrite then
    (.ok true, d1, [])
  else
    let sd := if inputsAbs then (some inputs, d1)
              else standardize_fastq_extensions true d1
    match sd with
    | (none, d2) => (.error .trimmingError, d2, [])
    | (some std, d2) => run_trimming env cfg .fastp std d2

/-- `FastpProcessor._process_short_read(input_file, srr_id, ...)`. -/
def process_short_read (env : Env) (cfg : Config) (inputsAbs : Bool)
    (input : FName) (d : UnitDir) :
    Except Err Bool × UnitDir × List Tool :=
  let d1 := d.mkdir
  if d1.has .trimmedS && !cfg.force_overwrite then (.ok true, d1, [])
  else
    let sd := if inputsAbs then (some [input], d1)
              else standardize_fastq_extensions false d1
    match sd with
    | (none, d2) => (.error .trimmingError, d2, [])
    | (some std, d2) => run_trimming env cfg .fastp std d2

/-- `FastpProcessor._process_long_read(input_file, srr_id, ...)`: no
extension standardization; skip when the single trimmed output exists and
overwrite is unset, else run `fastplong`. -/
def process_long_read (env : Env) (cfg : Config) (input : FName)
    (d : UnitDir) : Except Err Bool × UnitDir × List Tool :=
  let d1 := d.mkdir
  if d1.has .trimmedS && !cfg.force_overwrite then (.ok true, d1, [])
  else run_trimming env cfg .fastplong [input] d1

/-- `FastpProcessor.process(input_files, srr_id, output_dir)`: route by
input count and `_is_long_read` — the stored `force_long_reads`
configuration flag is never consulted.  An empty input list reaches
`input_files[0]` in the short-read branch and raises `IndexError`. -/
def FastpProcessor.process (env : Env) (cfg : Config) (inputsAbs : Bool)
    (inputs : List FName) (d : UnitDir) :
    Except Err Bool × UnitDir × List Tool :=
  match inputs with
  | [] => (.error .indexError, d, [])
  | [f] =>
    if is_long_read (env.content f) then process_long_read env cfg f d
    else process_short_read env cfg inputsAbs f d
  | [f1, f2] => process_paired_end env cfg inputsAbs [f1, f2] d
  | f :: _ :: _ :: _ => process_short_read env cfg inputsAbs f d

/-! ## Orchestrator (`cli.process_full_pipeline`) -/

/-- The name-sorted order `find_fastq_files` (glob over every accepted
extension pattern, then `sort()`) yields for the recognized untrimmed read
files of a unit: `'.' < '_'` puts `<id>.<ext>` before `<id>_1.<ext>` before
`<id>_2.<ext>`, and `"fas" < "fastq" < "fq"` orders the extensions. -/
def fastqSortOrder : List FName :=
  [.rawS .fas, .rawS .fastq, .rawS .fq,
   .raw1 .fas, .raw1 .fastq, .raw1 .fq,
   .raw2 .fas, .raw2 .fastq, .raw2 .fq]

/-- `find_fastq_files(srr_dir, srr_id)` composed with the caller-side
filter dropping names containing `'trimmed'` (applied at every `cli.py`
call site): the untrimmed read files present, in glob-sorted order; a
missing directory gives the empty list. -/
def find_fastq_files_untrimmed (d : UnitDir) : List FName :=
  if !d.dirExists then [] else fastqSortOrder.filter (fun f => d.has f)

/-- The per-unit `except SRAProcessingError` boundary: a raised
`SRAProcessingError` is reported as `False`; other exceptions propagate. -/
def catch_sra (r : Except Err Bool × UnitDir × List Tool) :
    Except Err Bool × UnitDir × List Tool :=
  match r with
  | (.error e, d, t) =>
    if e.isSRAProcessingError then (.ok false, d, t) else (.error e, d, t)
  | (.ok b, d, t) => (.ok b, d, t)

/-- The `new` branch of `process_full_pipeline`: `download_and_convert`,
then `trimmer.process` on the returned files (absolute paths, since the
output root is absolutized in `create_config`). -/
def branch_new (env : Env) (cfg : Config) (d : UnitDir) :
    Except Err Bool × UnitDir × List Tool :=
  catch_sra
    (match download_and_convert env cfg d with
     | (.error e, d1, t1) => (.error e, d1, t1)
     | (.ok (_, files), d1, t1) =>
       match FastpProcessor.process env cfg true files d1 with
       | (r, d2, t2) => (r, d2, t1 ++ t2))

/-- The `sra_downloaded` branch: `convert_to_fastq` directly (no `.sra`
cleanup in this path), then `trimmer.process`. -/
def branch_sra_downloaded (env : Env) (cfg : Config) (d : UnitDir) :
    Except Err Bool × UnitDir × List Tool :=
  catch_sra
    (match convert_to_fastq env d with
     | (.error e, d1, t1) => (.error e, d1, t1)
     | (.ok (_, files), d1, t1) =>
       match FastpProcessor.process env cfg true files d1 with
       | (r, d2, t2) => (r, d2, t1 ++ t2))

/-- The `fastq_ready` / `single_end` branches: find the untrimmed read
files; `False` when none remain, else `trimmer.process`. -/
def branch_reads_ready (env : Env) (cfg : Config) (d : UnitDir) :
    Except Err Bool × UnitDir × List Tool :=
  catch_sra
    (let files := find_fastq_files_untrimmed d
     if files.isEmpty then (.ok false, d, [])
     else FastpProcessor.process env cfg true files d)

/-- `process_full_pipeline(srr_id, config)` from `cli.py`.  The Python
recurses on the `unknown` state with no explicit bound after
`shutil.rmtree`; the embedding makes the recursion depth explicit with a
fuel argument (`none` = fuel exhausted before the recursion bottomed out). -/
def process_full_pipeline (env : Env) (cfg : Config) :
    Nat → UnitDir → Option (Except Err Bool × UnitDir × List Tool)
  | 0, _ => none
  | fuel + 1, d =>
    match check_srr_status d with
    | .new => some (branch_new env cfg d)
    | .sra_downloaded => some (branch_sra_downloaded env cfg d)
    | .fastq_ready => some (branch_reads_ready env cfg d)
    | .single_end => some (branch_reads_ready env cfg d)
    | .complete => some (.ok true, d, [])
    | .unknown => process_full_pipeline env cfg fuel d.rmtree

/-! ## Module import structure (`trimmer.py` line 5) -/

/-- The module-level names bound by `sra_processor/utils.py` (imports,
constants and function definitions, in source order). -/
def utilsModuleNames : List String :=
  ["logging", "Path", "Literal", "Optional", "List", "Tuple", "logger",
   "FASTQ_EXTENSIONS", "FASTQ_EXTENSIONS_COMPRESSED", "ALL_FASTQ_EXTENSIONS",
   "MIN_SRR_ID_LENGTH", "check_srr_status", "get_fastq_files",
   "detect_fastq_type", "find_fastq_files", "detect_input_type"]

/-- The names `trimmer.py` imports from the `utils` module
(`from .utils import open_fastq_file`, line 5). -/
def trimmerUtilsImports : List String := ["open_fastq_file"]

/-- Python `from`-import resolution: every requested name must be bound in
the source module, otherwise `ImportError` naming the first missing one. -/
def fromImport (moduleNames requested : List String) : Except String Unit :=
  match requested.find? (fun n => !moduleNames.contains n) with
  | some n => .error n
  | none => .ok ()

/-- Importing `sra_processor.trimmer` executes its top-level line 5,
`from .utils import open_fastq_file`. -/
def importTrimmerModule : Except String Unit :=
  fromImport utilsModuleNames trimmerUtilsImports

/-- Importing `sra_processor.cli` executes `from .trimmer import
FastpProcessor` (line 7), which first imports the trimmer module; every
trim and full-pipeline invocation, and every construction of
`FastpProcessor`, goes through this import. -/
def importCliModule : Except String Unit :=
  match importTrimmerModule with
  | .error n => .error n
  | .ok _ => .ok ()

/-! ## Concrete instances used by witnesses and counterexamples -/

/-- A concrete environment: every tool exits zero creating nothing; every
file read raises. -/
def env0 : Env :=
  { run := fun _ => { exitZero := true, creates := [] }
    content := fun _ => .error () }

/-- A concrete configuration with every flag unset. -/
def cfg0 : Config :=
  { threads := 8, keep_temp := false, force_long_reads := false
    force_overwrite := false, keep_sra := false }

/-! ## Helper lemmas -/

/-- `List.any` over the extension list is existential quantification over
`Ext`: the list enumerates all three constructors. -/
theorem any_fastq_ext_iff (f : Ext → Bool) :
    FASTQ_EXTENSIONS.any f = true ↔ ∃ e, f e = true := by
  constructor
  · intro h
    rcases List.any_eq_true.mp h with ⟨e, _, he⟩
    exact ⟨e, he⟩
  · rintro ⟨e, he⟩
    refine List.any_eq_true.mpr ⟨e, ?_, he⟩
    cases e <;> simp [FASTQ_EXTENSIONS]

/-- Dropping leading whitespace from a run of the letter `A` is the
identity. -/
theorem dropWhile_pySpace_replicate_A (k : Nat) :
    List.dropWhile isPySpace (List.replicate k 'A') = List.replicate k 'A' := by
  cases k with
  | zero => rfl
  | succ m =>
    simp [List.replicate_succ, List.dropWhile_cons,
      show isPySpace 'A' = false by decide]

/-- Stripping a run of the non-whitespace letter `A` leaves its length
unchanged. -/
theorem stripLength_replicate_A (n : Nat) :
    stripLength (String.mk (List.replicate n 'A')) = n := by
  unfold stripLength
  rw [show (String.mk (List.replicate n 'A')).data = List.replicate n 'A' from rfl,
    dropWhile_pySpace_replicate_A, List.reverse_replicate,
    dropWhile_pySpace_replicate_A, List.length_replicate]

/-! ## Claims -/

/-- Claim C1: `trimmer.py` imports the name `open_fastq_file` from the
`utils` module, but no binding of that name exists in `utils.py`, so the
trimmer module import — and with it the CLI, every construction of
`FastpProcessor`, and every trim or full-pipeline invocation — raises
`ImportError` (naming `open_fastq_file`) before any work is done. -/
theorem claim_C1_trimmer_import_fails :
    utilsModuleNames.contains "open_fastq_file" = false ∧
    importTrimmerModule = .error "open_fastq_file" ∧
    importCliModule = .error "open_fastq_file" := by
  refine ⟨by decide, rfl, rfl⟩

/-- Claim C2: the status resolver `check_srr_status` is a total function
returning exactly one state of the fixed six-state set for every
combination of present/absent artifacts (in particular it never throws),
and the fixed precedence holds: a unit whose directory exists and contains
both a raw `.sra` archive and the complete trimmed pair resolves to
`complete`. -/
theorem claim_C2_status_total_and_precedence :
    (∀ d : UnitDir,
      check_srr_status d ∈
        [Status.new, Status.sra_downloaded, Status.fastq_ready,
         Status.single_end, Status.complete, Status.unknown]) ∧
    (∀ d : UnitDir, d.dirExists = true →
      d.has .trimmed1 = true → d.has .trimmed2 = true →
      (d.has .sraRoot || d.has .sraSub) = true →
      check_srr_status d = .complete) := by
  constructor
  · intro d
    unfold check_srr_status
    split_ifs <;> simp
  · intro d h1 h2 h3 _
    simp [check_srr_status, h1, h2, h3]

/-- Witness for C2 at a concrete directory holding a raw archive and a
complete trimmed pair. -/
theorem claim_C2_witness :
    check_srr_status ⟨true, [.sraRoot, .trimmed1, .trimmed2]⟩ = .complete :=
  claim_C2_status_total_and_precedence.2 ⟨true, [.sraRoot, .trimmed1, .trimmed2]⟩
    rfl (by decide) (by decide) (by decide)

/-- Claim C3: when a unit resolves to `unknown`, `process_full_pipeline`
deletes the unit's working directory and re-runs the per-unit procedure
exactly once; after `rmtree` the directory resolves to `new`, so the re-run
never reaches the recursive branch again: recursion depth is bounded by one
retry (any fuel of at least 2 gives the same, defined result), and the
procedure terminates. -/
theorem claim_C3_recovery_one_retry (env : Env) (cfg : Config) (d : UnitDir)
    (h : check_srr_status d = .unknown) :
    (∀ fuel, process_full_pipeline env cfg (fuel + 1) d =
       process_full_pipeline env cfg fuel d.rmtree) ∧
    check_srr_status d.rmtree = .new ∧
    (∀ n, process_full_pipeline env cfg (n + 2) d =
       process_full_pipeline env cfg 2 d) ∧
    process_full_pipeline env cfg 2 d ≠ none := by
  have hr : check_srr_status d.rmtree = .new := rfl
  refine ⟨?_, hr, ?_, ?_⟩
  · intro fuel
    simp only [process_full_pipeline, h]
  · intro n
    simp only [process_full_pipeline, h, hr]
  · simp only [process_full_pipeline, h, hr]
    exact Option.some_ne_none _

/-- Witness for C3: a directory holding only an unrecognized stray file
resolves to `unknown`, and recovery terminates within one retry. -/
theorem claim_C3_witness :
    check_srr_status ⟨true, [FName.stray]⟩ = .unknown ∧
    process_full_pipeline env0 cfg0 2 ⟨true, [FName.stray]⟩ ≠ none :=
  ⟨rfl,
   (claim_C3_recovery_one_retry env0 cfg0 ⟨true, [FName.stray]⟩ rfl).2.2.2⟩

/-- Counterexample to claim C4: the conversion stage has no skip check.  A
unit whose expected conversion outputs (a converted read pair) already
exist, with the overwrite flag unset, still invokes `fasterq-dump` when
`convert_to_fastq` runs. -/
theorem claim_C4_counterexample :
    cfg0.force_overwrite = false ∧
    (⟨true, [.sraSub, .raw1 .fastq, .raw2 .fastq]⟩ : UnitDir).has (.raw1 .fastq) = true ∧
    (⟨true, [.sraSub, .raw1 .fastq, .raw2 .fastq]⟩ : UnitDir).has (.raw2 .fastq) = true ∧
    (convert_to_fastq env0 ⟨true, [.sraSub, .raw1 .fastq, .raw2 .fastq]⟩).2.2 =
      [Tool.fasterqDump] :=
  ⟨rfl, by decide, by decide, rfl⟩

/-- Claim C4 as amended: the acquisition stage skips (no tool invocation,
directory unchanged) when the nested `<id>/<id>.sra` archive exists, and
each trim substage skips when its trimmed outputs exist and the overwrite
flag is unset; the conversion stage has no such check (see the
counterexample), but a second full-pipeline run on a unit resolving to
`complete` returns success with zero external tool invocations and leaves
the artifacts identical. -/
theorem claim_C4_amended_skip_idempotence :
    (∀ (env : Env) (cfg : Config) (iA : Bool) (inputs : List FName) (d : UnitDir),
      cfg.force_overwrite = false →
      d.has .trimmed1 = true → d.has .trimmed2 = true →
      process_paired_end env cfg iA inputs d = (.ok true, d.mkdir, [])) ∧
    (∀ (env : Env) (cfg : Config) (iA : Bool) (input : FName) (d : UnitDir),
      cfg.force_overwrite = false → d.has .trimmedS = true →
      process_short_read env cfg iA input d = (.ok true, d.mkdir, [])) ∧
    (∀ (env : Env) (cfg : Config) (input : FName) (d : UnitDir),
      cfg.force_overwrite = false → d.has .trimmedS = true →
      process_long_read env cfg input d = (.ok true, d.mkdir, [])) ∧
    (∀ (env : Env) (d : UnitDir), d.has .sraSub = true →
      download_sra env d = (.ok (), d.mkdir, [])) ∧
    (∀ (env : Env) (cfg : Config) (fuel : Nat) (d : UnitDir),
      check_srr_status d = .complete →
      process_full_pipeline env cfg (fuel + 1) d = some (.ok true, d, [])) := by
  refine ⟨?_, ?_, ?_, ?_, ?_⟩
  · intro env cfg iA inputs d hf h1 h2
    have h1m : d.mkdir.has .trimmed1 = true := h1
    have h2m : d.mkdir.has .trimmed2 = true := h2
    simp [process_paired_end, hf, h1m, h2m]
  · intro env cfg iA input d hf h1
    have h1m : d.mkdir.has .trimmedS = true := h1
    simp [process_short_read, hf, h1m]
  · intro env cfg input d hf h1
    have h1m : d.mkdir.has .trimmedS = true := h1
    simp [process_long_read, hf, h1m]
  · intro env d h
    have hm : d.mkdir.has .sraSub = true := h
    simp [download_sra, hm]
  · intro env cfg fuel d h
    simp only [process_full_pipeline, h]

/-- Witness for the amended C4 at concrete inputs: a completed unit skips
the paired trim substage and the full pipeline re-run is a no-op. -/
theorem claim_C4_witness :
    process_paired_end env0 cfg0 true [.raw1 .fastq, .raw2 .fastq]
        ⟨true, [.trimmed1, .trimmed2]⟩ =
      (.ok true, ⟨true, [.trimmed1, .trimmed2]⟩, []) ∧
    process_full_pipeline env0 cfg0 1 ⟨true, [.trimmed1, .trimmed2]⟩ =
      some (.ok true, ⟨true, [.trimmed1, .trimmed2]⟩, []) :=
  ⟨claim_C4_amended_skip_idempotence.1 env0 cfg0 true [.raw1 .fastq, .raw2 .fastq]
      ⟨true, [.trimmed1, .trimmed2]⟩ rfl (by decide) (by decide),
   claim_C4_amended_skip_idempotence.2.2.2.2 env0 cfg0 0
      ⟨true, [.trimmed1, .trimmed2]⟩ rfl⟩

/-- Claim C5 (code bug): `create_config` stores the `force-long-reads` flag
in the configuration, but `FastpProcessor.process` never consults it — its
routing is invariant under the flag — so a configuration with the flag set
and two (or one short) input files is still routed to the short-read tool
`fastp`, never reaching `fastplong`. -/
theorem claim_C5_force_long_reads_dead :
    (∀ (args : Args) (sub : Subcommand),
      (create_config args sub).force_long_reads = args.force_long_reads) ∧
    (∀ (env : Env) (cfg : Config) (b iA : Bool) (inputs : List FName)
       (d : UnitDir),
      FastpProcessor.process env { cfg with force_long_reads := b } iA inputs d =
        FastpProcessor.process env cfg iA inputs d) ∧
    (FastpProcessor.process env0 { cfg0 with force_long_reads := true } true
        [.raw1 .fastq, .raw2 .fastq] ⟨true, [.raw1 .fastq, .raw2 .fastq]⟩).2.2 =
      [Tool.fastp] := by
  refine ⟨fun args sub => rfl, ?_, rfl⟩
  intro env cfg b iA inputs d
  cases cfg
  rfl

/-- Counterexample to claim C6: the trim stage performs no post-success
output verification.  With the trimmer exiting zero but creating no files,
`_process_paired_end` returns success even though neither expected trimmed
output exists afterwards (and no `TrimmingError` is raised). -/
theorem claim_C6_counterexample :
    (env0.run .fastp).exitZero = true ∧
    (process_paired_end env0 cfg0 true [.raw1 .fastq, .raw2 .fastq]
        ⟨true, [.raw1 .fastq, .raw2 .fastq]⟩).1 = .ok true ∧
    ((process_paired_end env0 cfg0 true [.raw1 .fastq, .raw2 .fastq]
        ⟨true, [.raw1 .fastq, .raw2 .fastq]⟩).2.1).has .trimmed1 = false ∧
    ((process_paired_end env0 cfg0 true [.raw1 .fastq, .raw2 .fastq]
        ⟨true, [.raw1 .fastq, .raw2 .fastq]⟩).2.1).has .trimmed2 = false :=
  ⟨rfl, rfl, rfl, rfl⟩

/-- Claim C6 as amended: only the conversion stage verifies its outputs
after a zero tool exit (`_validate_output` raises `ConversionError` when no
read file was produced); the trim stage returns success after a zero exit
with no output check at all, and the acquisition stage likewise returns
success without verifying that the archive now exists. -/
theorem claim_C6_amended_output_verification :
    (∀ (env : Env) (d : UnitDir),
      (d.has .sraSub || d.has .sraRoot) = true →
      (env.run .fasterqDump).exitZero = true →
      (∀ e, ((d.addFiles (env.run .fasterqDump).creates).has (.raw1 e) &&
             (d.addFiles (env.run .fasterqDump).creates).has (.raw2 e)) = false) →
      (∀ e, (d.addFiles (env.run .fasterqDump).creates).has (.rawS e) = false) →
      (convert_to_fastq env d).1 = .error .conversionError) ∧
    (∀ (env : Env) (cfg : Config) (tool : Tool) (inputs : List FName)
       (d : UnitDir),
      (env.run tool).exitZero = true →
      (run_trimming env cfg tool inputs d).1 = .ok true) ∧
    (∀ (env : Env) (d : UnitDir),
      d.has .sraSub = false →
      (env.run .prefetch).exitZero = true →
      (download_sra env d).1 = .ok ()) := by
  refine ⟨?_, ?_, ?_⟩
  · intro env d h1 h2 h3 h4
    simp [convert_to_fastq, h1, h2, validate_output, FASTQ_EXTENSIONS,
      List.find?, h3 .fastq, h3 .fq, h3 .fas, h4 .fastq, h4 .fq, h4 .fas]
  · intro env cfg tool inputs d h
    simp [run_trimming, h]
  · intro env d h1 h2
    have h1m : d.mkdir.has .sraSub = false := h1
    simp [download_sra, h1m, h2]

/-- Witness for the amended C6 at concrete inputs: a conversion whose tool
succeeds but creates nothing raises `ConversionError`; a trim run whose
tool succeeds returns success; an acquisition whose tool succeeds returns
success without verifying outputs. -/
theorem claim_C6_witness :
    (convert_to_fastq env0 ⟨true, [.sraSub]⟩).1 = .error .conversionError ∧
    (run_trimming env0 cfg0 .fastp [.raw1 .fastq] ⟨true, [.raw1 .fastq]⟩).1 =
      .ok true ∧
    (download_sra env0 ⟨false, []⟩).1 = .ok () :=
  ⟨claim_C6_amended_output_verification.1 env0 ⟨true, [.sraSub]⟩ (by decide) rfl
      (fun e => by cases e <;> rfl) (fun e => by cases e <;> rfl),
   claim_C6_amended_output_verification.2.1 env0 cfg0 .fastp [.raw1 .fastq]
      ⟨true, [.raw1 .fastq]⟩ rfl,
   claim_C6_amended_output_verification.2.2 env0 ⟨false, []⟩ rfl rfl⟩

/-- Claim C7: for every sampled file with at least one sampled record, both
classifiers report long exactly when the sampled arithmetic mean sequence
length strictly exceeds 500; a mean of exactly 500 classifies short (paired
or single), a mean of 501 classifies long. -/
theorem claim_C7_length_boundary :
    ∀ (lines : List String) (name1 partner : Bool),
      sampleLengths lines ≠ [] →
      (((detect_fastq_type (.ok lines) name1 partner).1 = .long) ↔
         500 < avgLength (sampleLengths lines)) ∧
      ((is_long_read (.ok lines) = true) ↔
         500 < avgLength (sampleLengths lines)) ∧
      (avgLength (sampleLengths lines) = 500 →
        ((detect_fastq_type (.ok lines) name1 partner).1 = .paired ∨
         (detect_fastq_type (.ok lines) name1 partner).1 = .single) ∧
        is_long_read (.ok lines) = false) ∧
      (avgLength (sampleLengths lines) = 501 →
        (detect_fastq_type (.ok lines) name1 partner).1 = .long ∧
        is_long_read (.ok lines) = true) := by
  intro lines n p h
  have hL : (sampleLengths lines).isEmpty = false := by
    cases hE : sampleLengths lines with
    | nil => exact absurd hE h
    | cons a t => rfl
  have hdet : ((detect_fastq_type (.ok lines) n p).1 = .long) ↔
      500 < avgLength (sampleLengths lines) := by
    by_cases hm : 500 < avgLength (sampleLengths lines)
    · simp [detect_fastq_type, hL, hm]
    · simp only [detect_fastq_type, hL, hm]
      cases n <;> cases p <;> simp
  have hisl : (is_long_read (.ok lines) = true) ↔
      500 < avgLength (sampleLengths lines) := by
    by_cases hm : 500 < avgLength (sampleLengths lines) <;>
      simp [is_long_read, hL, hm]
  refine ⟨hdet, hisl, ?_, ?_⟩
  · intro hme
    have hm : ¬ 500 < avgLength (sampleLengths lines) := by
      rw [hme]; norm_num
    constructor
    · simp only [detect_fastq_type, hL, hm]
      cases n <;> cases p <;> simp
    · cases hB : is_long_read (.ok lines)
      · rfl
      · exact absurd (hisl.mp hB) hm
  · intro hme
    have hm : 500 < avgLength (sampleLengths lines) := by
      rw [hme]; norm_num
    exact ⟨hdet.mpr hm, hisl.mpr hm⟩

/-- A four-line FASTQ record whose sequence line holds 501 bases. -/
def lines501 : List String :=
  ["@r", String.mk (List.replicate 501 'A'), "+", String.mk (List.replicate 501 'I')]

/-- A four-line FASTQ record whose sequence line holds 500 bases. -/
def lines500 : List String :=
  ["@r", String.mk (List.replicate 500 'A'), "+", String.mk (List.replicate 500 'I')]

/-- Witness for C7 at the boundary: a single sampled record of length 501
classifies long, one of length 500 classifies short. -/
theorem claim_C7_witness :
    (detect_fastq_type (.ok lines501) false false).1 = .long ∧
    is_long_read (.ok lines501) = true ∧
    ((detect_fastq_type (.ok lines500) false false).1 = .paired ∨
     (detect_fastq_type (.ok lines500) false false).1 = .single) ∧
    is_long_read (.ok lines500) = false := by
  have h501 : sampleLengths lines501 = [501] := by
    have he : sampleLengths lines501 =
        [stripLength (String.mk (List.replicate 501 'A'))] := rfl
    rw [he, stripLength_replicate_A 501]
  have h500 : sampleLengths lines500 = [500] := by
    have he : sampleLengths lines500 =
        [stripLength (String.mk (List.replicate 500 'A'))] := rfl
    rw [he, stripLength_replicate_A 500]
  have ha501 : avgLength (sampleLengths lines501) = 501 := by
    rw [h501]; norm_num [avgLength]
  have ha500 : avgLength (sampleLengths lines500) = 500 := by
    rw [h500]; norm_num [avgLength]
  have w501 := (claim_C7_length_boundary lines501 false false
      (by rw [h501]; simp)).2.2.2 ha501
  have w500 := (claim_C7_length_boundary lines500 false false
      (by rw [h500]; simp)).2.2.1 ha500
  exact ⟨w501.1, w501.2, w500.1, w500.2⟩

/-- Counterexample to claim C8: a file from which fewer than one full
four-line record can be read (only a header and a sequence line) is not
defaulted to single-with-warning — the truncated record is sampled, no
warning is logged, and with a `_2` sibling present the result is `paired`. -/
theorem claim_C8_counterexample :
    (["@r1", "ACGT"] : List String).length < 4 ∧
    detect_fastq_type (.ok ["@r1", "ACGT"]) true true = (.paired, false) := by
  refine ⟨by norm_num, ?_⟩
  have hs : sampleLengths ["@r1", "ACGT"] = [4] := by decide
  have hm : ¬ 500 < avgLength (sampleLengths ["@r1", "ACGT"]) := by
    rw [hs]; norm_num [avgLength]
  have hL : (sampleLengths ["@r1", "ACGT"]).isEmpty = false := by rw [hs]; rfl
  simp [detect_fastq_type, hL, hm]

/-- Claim C8 as amended: classification is total and never raises — on any
read error it returns single with a warning, and when not even one sequence
line can be sampled it returns single with a warning; but a truncated
record that does include a sequence line is sampled normally, and whenever
the sample is nonempty no warning is emitted (see the counterexample). -/
theorem claim_C8_amended_default :
    (∀ (name1 partner : Bool),
      detect_fastq_type (.error ()) name1 partner = (.single, true)) ∧
    (∀ (lines : List String) (name1 partner : Bool),
      sampleLengths lines = [] →
      detect_fastq_type (.ok lines) name1 partner = (.single, true)) ∧
    (∀ (lines : List String) (name1 partner : Bool),
      sampleLengths lines ≠ [] →
      (detect_fastq_type (.ok lines) name1 partner).2 = false) := by
  refine ⟨fun n p => rfl, ?_, ?_⟩
  · intro lines n p h
    simp [detect_fastq_type, h]
  · intro lines n p h
    have hL : (sampleLengths lines).isEmpty = false := by
      cases hE : sampleLengths lines with
      | nil => exact absurd hE h
      | cons a t => rfl
    by_cases hm : 500 < avgLength (sampleLengths lines)
    · simp [detect_fastq_type, hL, hm]
    · by_cases hnp : (n && p) = true
      · simp [detect_fastq_type, hL, hm, hnp]
      · simp [detect_fastq_type, hL, hm, hnp]

/-- Witness for the amended C8 at concrete inputs: an empty file defaults
to single with a warning, and a complete sampled record emits none. -/
theorem claim_C8_witness :
    detect_fastq_type (.ok []) false false = (.single, true) ∧
    (detect_fastq_type (.ok ["@a", "AA", "+", "II"]) true true).2 = false :=
  ⟨claim_C8_amended_default.2.1 [] false false rfl,
   claim_C8_amended_default.2.2 ["@a", "AA", "+", "II"] true true (by decide)⟩

/-- Counterexample to claim C9: the resolver returns `fastq_ready` for a
directory that does contain a trimmed output (one trimmed mate) next to an
intact raw pair, so "no trimmed outputs are present" is not a necessary
condition for the paired-reads-ready state. -/
theorem claim_C9_counterexample :
    check_srr_status ⟨true, [.trimmed1, .raw1 .fastq, .raw2 .fastq]⟩ =
      .fastq_ready ∧
    (⟨true, [.trimmed1, .raw1 .fastq, .raw2 .fastq]⟩ : UnitDir).has .trimmed1 =
      true :=
  ⟨rfl, rfl⟩

/-- Claim C9 as amended: for an existing directory the resolver returns
`fastq_ready` exactly when some single accepted extension synonym has both
mate files present and the completion condition fails (the trimmed pair is
not complete and the single trimmed output is absent); a mate pair whose
two files carry different synonym spellings does not resolve to
`fastq_ready` (the concrete mixed pair resolves to `unknown`). -/
theorem claim_C9_amended_fastq_ready_iff :
    (∀ d : UnitDir, d.dirExists = true →
      (check_srr_status d = .fastq_ready ↔
        (∃ e, d.has (.raw1 e) = true ∧ d.has (.raw2 e) = true) ∧
        ¬(d.has .trimmed1 = true ∧ d.has .trimmed2 = true) ∧
        d.has .trimmedS = false)) ∧
    check_srr_status ⟨true, [.raw1 .fastq, .raw2 .fq]⟩ = .unknown := by
  constructor
  · intro d h
    unfold check_srr_status
    rw [h]
    rw [if_neg (show ¬((!true) = true) by simp)]
    by_cases h1 : (d.has .trimmed1 && d.has .trimmed2) = true
    · rw [if_pos h1]
      constructor
      · intro hc; exact absurd hc (by simp)
      · rintro ⟨-, hnt, -⟩
        exact absurd ((Bool.and_eq_true _ _).mp h1) hnt
    · rw [if_neg h1]
      by_cases h2 : d.has .trimmedS = true
      · rw [if_pos h2]
        constructor
        · intro hc; exact absurd hc (by simp)
        · rintro ⟨-, -, hts⟩
          simp [h2] at hts
      · rw [if_neg h2]
        by_cases h3 : (FASTQ_EXTENSIONS.any fun e =>
            d.has (.raw1 e) && d.has (.raw2 e)) = true
        · rw [if_pos h3]
          constructor
          · intro _
            obtain ⟨e, hee⟩ := (any_fastq_ext_iff _).mp h3
            exact ⟨⟨e, (Bool.and_eq_true _ _).mp hee⟩,
                   fun hc => h1 ((Bool.and_eq_true _ _).mpr hc),
                   by simpa using h2⟩
          · intro _; rfl
        · rw [if_neg h3]
          constructor
          · intro hc
            exfalso
            revert hc
            split_ifs <;> simp
          · rintro ⟨⟨e, he1, he2⟩, -, -⟩
            exact absurd ((any_fastq_ext_iff _).mpr
              ⟨e, (Bool.and_eq_true _ _).mpr ⟨he1, he2⟩⟩) h3
  · rfl

/-- Witness for the amended C9: a pair sharing the `.fq` spelling, with no
trimmed outputs, resolves to `fastq_ready`. -/
theorem claim_C9_witness :
    check_srr_status ⟨true, [.raw1 .fq, .raw2 .fq]⟩ = .fastq_ready :=
  (claim_C9_amended_fastq_ready_iff.1 ⟨true, [.raw1 .fq, .raw2 .fq]⟩ rfl).mpr
    ⟨⟨.fq, by decide, by decide⟩, by decide, by decide⟩

/-- Counterexample to claim C10: when the canonical `<id>.fastq` and the
synonym `<id>.fq` coexist, `_standardize_fastq_extensions` returns the
canonical file and leaves the directory unchanged — the `.fq` synonym is
still present afterwards, so more than one read artifact set remains. -/
theorem claim_C10_counterexample :
    standardize_fastq_extensions false ⟨true, [.rawS .fastq, .rawS .fq]⟩ =
      (some [FName.rawS .fastq], ⟨true, [.rawS .fastq, .rawS .fq]⟩) ∧
    ((standardize_fastq_extensions false
        ⟨true, [.rawS .fastq, .rawS .fq]⟩).2).has (.rawS .fq) = true :=
  ⟨rfl, rfl⟩

/-- Claim C10 as amended: normalization always yields the canonical
`.fastq`-spelled artifact (it is the returned file and exists afterwards
whenever any synonym was present), but it does not restore the
single-artifact invariant: when the canonical spelling already exists, the
directory is left wholly unchanged, so a coexisting synonym spelling
remains on disk. -/
theorem claim_C10_amended_normalization :
    (∀ d : UnitDir, d.has (.rawS .fastq) = true →
      standardize_fastq_extensions false d = (some [FName.rawS .fastq], d)) ∧
    (∀ d : UnitDir, d.has (.raw1 .fastq) = true → d.has (.raw2 .fastq) = true →
      standardize_fastq_extensions true d =
        (some [FName.raw1 .fastq, FName.raw2 .fastq], d)) ∧
    (∀ d : UnitDir, (∃ e, d.has (.rawS e) = true) →
      (standardize_fastq_extensions false d).1 = some [FName.rawS .fastq] ∧
      ((standardize_fastq_extensions false d).2).has (.rawS .fastq) = true) := by
  refine ⟨?_, ?_, ?_⟩
  · intro d h
    simp [standardize_fastq_extensions, standardizeSingleAux,
      FASTQ_EXTENSIONS, h]
  · intro d h1 h2
    simp [standardize_fastq_extensions, standardizePairedAux,
      FASTQ_EXTENSIONS, h1, h2]
  · intro d he
    by_cases h1 : FName.rawS Ext.fastq ∈ d.files
    · constructor <;>
        simp [standardize_fastq_extensions, standardizeSingleAux,
          FASTQ_EXTENSIONS, UnitDir.has, h1]
    · by_cases h2 : FName.rawS Ext.fq ∈ d.files
      · constructor <;>
          simp [standardize_fastq_extensions, standardizeSingleAux,
            FASTQ_EXTENSIONS, UnitDir.has, UnitDir.addFiles,
            UnitDir.removeFiles, h1, h2]
      · by_cases h3 : FName.rawS Ext.fas ∈ d.files
        · constructor <;>
            simp [standardize_fastq_extensions, standardizeSingleAux,
              FASTQ_EXTENSIONS, UnitDir.has, UnitDir.addFiles,
              UnitDir.removeFiles, h1, h2, h3]
        · rcases he with ⟨e, hee⟩
          simp only [UnitDir.has] at hee
          cases e <;> simp_all

/-- Witness for the amended C10: a directory holding only the canonical
single read file is returned as is. -/
theorem claim_C10_witness :
    standardize_fastq_extensions false ⟨true, [.rawS .fastq]⟩ =
      (some [FName.rawS .fastq], ⟨true, [.rawS .fastq]⟩) :=
  claim_C10_amended_normalization.1 ⟨true, [.rawS .fastq]⟩ (by decide)

end SRA
